import Mathlib

/-!
Shallow embedding of `scripts/retrain.py` (transfer-learning retraining script).

Paths are modelled as lists of path segments (`os.path.join a b` becomes
`a ++ [b]`, `os.path.dirname` becomes `List.dropLast`).  The filesystem is a
map from paths to file contents.  Machine effects of the external ML
framework (model graphs, weights, accuracy numbers) are not modelled: the
embedding records which framework calls are made and with which arguments,
which is what the claims are about.  Python's `//` is floor division and
raises `ZeroDivisionError` on a zero divisor; it is embedded as `pydiv`
over `Int` with an explicit error.
-/

namespace Retrain

abbrev FilePath := List String

/-- Contents of a file: opaque framework-serialized bytes, or the python
dict written by `np.save` in `save_labels_to_file`. -/
inductive FileData where
  | bytes : List Nat → FileData
  | npyDict : List (Nat × String) → FileData
deriving DecidableEq

abbrev FS := FilePath → Option FileData

def emptyFS : FS := fun _ => none

def writeFile (fs : FS) (p : FilePath) (c : FileData) : FS :=
  fun q => if q = p then some c else fs q

/-- Write a list of (relative path, contents) files under a base directory. -/
def writeFiles (fs : FS) (base : FilePath) (files : List (FilePath × FileData)) : FS :=
  files.foldl (fun acc f => writeFile acc (base ++ f.1) f.2) fs

/-- Embedding of `distutils.dir_util.copy_tree(src, dst)`: every file found under `src`
is copied to the corresponding path under `dst`, overwriting files that
collide; files already present under `dst` that have no counterpart under
`src` are left in place (`copy_tree` never deletes). -/
def copy_tree (src dst : FilePath) (fs : FS) : FS := fun p =>
  if dst <+: p then
    match fs (src ++ p.drop dst.length) with
    | some c => some c
    | none => fs p
  else fs p

inductive PyError where
  | zeroDivisionError
deriving DecidableEq

/-- Python's `//` on ints: floor division, `ZeroDivisionError` on divisor 0. -/
def pydiv (a b : Int) : Except PyError Int :=
  if b = 0 then .error .zeroDivisionError else .ok (Int.fdiv a b)

/-- The exact value of a python float, as numerator/denominator.  The
script performs no floating-point arithmetic: float values (learning rates,
momentum, augmentation ranges) are only stored and passed to the framework,
so an exact representation of the literals involved is faithful. -/
structure PyFloat where
  num : Int
  den : Nat
deriving DecidableEq

/-- Value `0.01`, the `learning_rate` flag default. -/
def float0_01 : PyFloat := ⟨1, 100⟩

/-- Value `1e-3`, the hard-coded learning rate of `evaluate_model`'s optimizer
(and `create_model`'s python default). -/
def float1e3 : PyFloat := ⟨1, 1000⟩

/-- Value `0.9`, the hard-coded momentum of `evaluate_model`'s optimizer. -/
def float0_9 : PyFloat := ⟨9, 10⟩

/-- The optimizers this run can be compiled with: the two entries of
`available_optimizers` in `create_model`, and the hard-coded
`tf.train.MomentumOptimizer(learning_rate=1e-3, momentum=0.9)` used in
`evaluate_model`. -/
inductive Optimizer where
  | SGD : PyFloat → Optimizer
  | Adam : PyFloat → Optimizer
  | Momentum : PyFloat → PyFloat → Optimizer
deriving DecidableEq

/-- A keras data feeder as produced by `flow_from_directory`: the directory
it scans, the batch size and target image size it was given, whether its
`ImageDataGenerator` applies the random augmentations, and the label→index
assignment `class_indices` discovered from the directory scan. -/
structure Feeder where
  dir : FilePath
  batchSize : Int
  imageSize : Int
  augmented : Bool
  class_indices : List (String × Nat)
deriving DecidableEq

/-- Lexicographic order on char lists by code point, as python's `sorted`
orders strings. -/
def charListLe : List Char → List Char → Bool
  | [], _ => true
  | _ :: _, [] => false
  | c :: cs, d :: ds =>
    if c.val.toNat < d.val.toNat then true
    else if d.val.toNat < c.val.toNat then false
    else charListLe cs ds

def strLe (s t : String) : Bool := charListLe s.data t.data

def insertSorted (x : String) : List String → List String
  | [] => [x]
  | y :: ys => if strLe x y then x :: y :: ys else y :: insertSorted x ys

def sortedLabels (labels : List String) : List String :=
  labels.foldr insertSorted []

/-- Modelled from the spec: the framework's `flow_from_directory` scans the
class subdirectories in deterministic (sorted) listing order and assigns
indices 0, 1, ... in that order, producing the feeder's `class_indices`
label→index mapping.  (The assignment itself is framework code, outside
this repository; the spec calls its listing-order determinism a hidden
dependency of reproducibility.) -/
def flowClassIndices (classes : List String) : List (String × Nat) :=
  (sortedLabels classes).enum.map (fun p => (p.2, p.1))

/-- Embedding of `create_data_feeders`: three feeders over `train/`, `val/`, `test/`, all
given the same `batch_size` argument; only the training generator's
`ImageDataGenerator` has the augmentation parameters.  The `*Classes`
arguments stand for the class subdirectories each `flow_from_directory`
scan discovers on disk. -/
def create_data_feeders (train_dir val_dir test_dir : FilePath) (batch_size : Int)
    (trainClasses valClasses testClasses : List String) (image_size : Int) :
    Feeder × Feeder × Feeder :=
  let train_gen : Feeder :=
    { dir := train_dir, batchSize := batch_size, imageSize := image_size,
      augmented := true, class_indices := flowClassIndices trainClasses }
  let val_gen : Feeder :=
    { dir := val_dir, batchSize := batch_size, imageSize := image_size,
      augmented := false, class_indices := flowClassIndices valClasses }
  let test_gen : Feeder :=
    { dir := test_dir, batchSize := batch_size, imageSize := image_size,
      augmented := false, class_indices := flowClassIndices testClasses }
  (train_gen, val_gen, test_gen)

/-- Embedding of `create_feature_extractor`: MobileNetV2 base with every layer's
`trainable` set to `fully_trainable`. -/
structure BaseModel where
  input_shape : Int × Int × Int
  layers_trainable : Bool
deriving DecidableEq

def create_feature_extractor (input_shape : Int × Int × Int) (fully_trainable : Bool) :
    BaseModel :=
  { input_shape := input_shape, layers_trainable := fully_trainable }

/-- The assembled, not yet compiled network: base model plus the final
`Dense(num_labels, activation="softmax")` classification head. -/
structure UncompiledModel where
  base : BaseModel
  head_units : Int
  head_activation : String
deriving DecidableEq

/-- Embedding of `add_classifier`: attach a `Dense(num_labels, activation="softmax")`
head to the feature extractor. -/
def add_classifier (base_model : BaseModel) (num_labels : Int) : UncompiledModel :=
  { base := base_model, head_units := num_labels, head_activation := "softmax" }

/-- A compiled model: the network plus the loss, optimizer and metrics
bound by `model.compile`. -/
structure Model where
  network : UncompiledModel
  loss : String
  optimizer : Optimizer
  metrics : List String
deriving DecidableEq

/-- The `available_optimizers` dict of `create_model`. -/
def available_optimizers (learning_rate : PyFloat) : List (String × Optimizer) :=
  [("sgd", Optimizer.SGD learning_rate), ("adam", Optimizer.Adam learning_rate)]

def compileModel (m : UncompiledModel) (loss : String) (opt : Optimizer)
    (metrics : List String) : Model :=
  { network := m, loss := loss, optimizer := opt, metrics := metrics }

/-- Embedding of `create_model`: build the network and compile it.  If the `optimizer`
name is a key of `available_optimizers` that entry is used, otherwise
`available_optimizers["sgd"]` is silently chosen (also for the `None`
default). -/
def create_model (num_labels : Int) (input_shape : Int × Int × Int) (learning_rate : PyFloat)
    (optimizer : Option String) (fully_trainable : Bool) : Model :=
  let base_model := create_feature_extractor input_shape fully_trainable
  let model := add_classifier base_model num_labels
  let choice :=
    match optimizer with
    | some name =>
      match (available_optimizers learning_rate).lookup name with
      | some c => c
      | none => Optimizer.SGD learning_rate
    | none => Optimizer.SGD learning_rate
  compileModel model "categorical_crossentropy" choice ["accuracy"]

/-- The observable behaviour of one `evaluate_model(path, image_gen)` call:
the model is loaded from `path`, recompiled with the hard-coded
`tf.train.MomentumOptimizer(learning_rate=1e-3, momentum=0.9)`, and
`evaluate_generator` is run with no `steps` argument (`steps := none`, i.e.
one full pass over the feeder).  The resulting accuracy is logged
(`loggedAccuracy`) and the python function returns `None`: the record holds
no accuracy value for a caller to consume. -/
structure EvalRecord where
  loadedFrom : FilePath
  recompiledWith : Optimizer
  loss : String
  feeder : Feeder
  steps : Option Int
  loggedAccuracy : Bool
deriving DecidableEq

def evaluate_model (path : FilePath) (image_gen : Feeder) : EvalRecord :=
  { loadedFrom := path,
    recompiledWith := Optimizer.Momentum float1e3 float0_9,
    loss := "categorical_crossentropy",
    feeder := image_gen,
    steps := none,
    loggedAccuracy := true }

/-- Filesystem operations performed by `save_labels_to_file`, in order. -/
inductive FsOp where
  | makedirs : FilePath → FsOp
  | write : FilePath → FileData → FsOp
deriving DecidableEq

/-- Insertion into a python dict: an existing key keeps its position and
gets the new value, a fresh key is appended. -/
def dictInsert (d : List (Nat × String)) (k : Nat) (v : String) : List (Nat × String) :=
  if d.any (fun e => e.1 == k) then
    d.map (fun e => if e.1 == k then (k, v) else e)
  else d ++ [(k, v)]

/-- The dict comprehension of `save_labels_to_file`:
`{v: k for k, v in trained_classes.items()}`. -/
def invert_class_indices (trained_classes : List (String × Nat)) : List (Nat × String) :=
  trained_classes.foldl (fun d kv => dictInsert d kv.2 kv.1) []

/-- Since `np.save` appends a `.npy` extension when the file name does not
already have one, this maps the requested path to the path actually
written. -/
def npyPath (p : FilePath) : FilePath :=
  match p.getLast? with
  | some f => if (".npy".data).isSuffixOf f.data then p else p.dropLast ++ [f ++ ".npy"]
  | none => p

/-- Embedding of `save_labels_to_file(train_gen, labels_file)`: `os.makedirs` on the
dirname of `labels_file`, then `np.save` of the inverted
`train_gen.class_indices`, in that order. -/
def save_labels_to_file (train_gen : Feeder) (labels_file : FilePath) : List FsOp :=
  let trained_classes := train_gen.class_indices
  let classes_by_idx := invert_class_indices trained_classes
  [FsOp.makedirs labels_file.dropLast,
   FsOp.write (npyPath labels_file) (FileData.npyDict classes_by_idx)]

def applyFsOp (fs : FS) : FsOp → FS
  | FsOp.makedirs _ => fs
  | FsOp.write p c => writeFile fs p c

/-- The two callbacks of `create_callbacks`. -/
inductive Callback where
  | modelCheckpoint : FilePath → Callback
  | tensorBoard : FilePath → Callback
deriving DecidableEq

def create_callbacks (output_model_path summary_dir : FilePath) : List Callback :=
  [Callback.modelCheckpoint output_model_path, Callback.tensorBoard summary_dir]

/-- The command line flags, with the types `argparse` coerces them to. -/
structure Flags where
  image_dir : FilePath
  output_labels : FilePath
  summaries_dir : FilePath
  how_many_training_steps : Int
  learning_rate : PyFloat
  train_batch_size : Int
  test_batch_size : Int
  validation_batch_size : Int
  model_dir : FilePath
  architecture : String
  optimizer_name : String
  image_size : Int
  epochs : Int
deriving DecidableEq

/-- The environment a run executes in: the class subdirectories each
directory scan discovers, the wall-clock timestamp, the timestamped subdir
names `tf.contrib.saved_model.save_keras_model` picks for its two calls and
the files it writes there, and the initial filesystem. -/
structure Env where
  trainClasses : List String
  valClasses : List String
  testClasses : List String
  timestamp : String
  untrainedName : String
  trainedName : String
  untrainedFiles : List (FilePath × FileData)
  trainedFiles : List (FilePath × FileData)
  fs0 : FS

/-- The framework calls `main` makes, in program order, with the arguments
it passes them. -/
inductive Event where
  | madeDirs : FilePath → Event
  | feedersCreated : Feeder → Feeder → Feeder → Event
  | labelsSaved : List FsOp → Event
  | modelCreated : Model → Event
  | kerasModelSaved : FilePath → Event
  | evaluated : EvalRecord → Event
  | callbacksCreated : List Callback → Event
  | fitCalled : Feeder → Int → Int → Feeder → Int → List Callback → Event
  | treeCopied : FilePath → FilePath → Event
  | sessionCleared : Event
deriving DecidableEq

/-- Embedding of `main`: the whole run.  Returns the ordered list of framework calls and
the final filesystem, or the uncaught python error that terminated the run
(`ZeroDivisionError` from `//` when a divisor is 0).  `num_train_images`
and `num_labels` are the hard-coded constants of the source.  The
`fitCalled` arguments are `train_gen`, `steps_per_epoch`,
`epochs = FLAGS.how_many_training_steps // steps_per_epoch`, `val_gen`,
`validation_steps=5`, and the callbacks. -/
def main (F : Flags) (env : Env) : Except PyError (List Event × FS) :=
  let train_dir := F.image_dir ++ ["train"]
  let val_dir := F.image_dir ++ ["val"]
  let test_dir := F.image_dir ++ ["test"]
  let checkpoint_dir := F.model_dir.dropLast ++ ["checkpoints"]
  let checkpoint_path := checkpoint_dir ++ ["checkpoint.pb"]
  let tb_dir := F.summaries_dir ++ [env.timestamp]
  let (train_gen, val_gen, test_gen) :=
    create_data_feeders train_dir val_dir test_dir F.train_batch_size
      env.trainClasses env.valClasses env.testClasses F.image_size
  let labelOps := save_labels_to_file train_gen F.output_labels
  let fs1 := labelOps.foldl applyFsOp env.fs0
  let num_train_images : Int := 2055
  let num_labels : Int := 5
  let model := create_model num_labels (F.image_size, F.image_size, 3) F.learning_rate
      (some F.optimizer_name) false
  let untrained_path := checkpoint_dir ++ [env.untrainedName]
  let fs2 := writeFiles fs1 untrained_path env.untrainedFiles
  let eval1 := evaluate_model untrained_path test_gen
  let callbacks := create_callbacks checkpoint_path tb_dir
  match pydiv num_train_images F.train_batch_size with
  | .error e => .error e
  | .ok steps_per_epoch =>
    match pydiv F.how_many_training_steps steps_per_epoch with
    | .error e => .error e
    | .ok epochs =>
      let output_path := checkpoint_dir ++ [env.trainedName]
      let fs3 := writeFiles fs2 output_path env.trainedFiles
      let fs4 := copy_tree output_path F.model_dir fs3
      let eval2 := evaluate_model F.model_dir test_gen
      .ok ([Event.madeDirs checkpoint_dir,
            Event.feedersCreated train_gen val_gen test_gen,
            Event.labelsSaved labelOps,
            Event.modelCreated model,
            Event.kerasModelSaved untrained_path,
            Event.evaluated eval1,
            Event.callbacksCreated callbacks,
            Event.fitCalled train_gen steps_per_epoch epochs val_gen 5 callbacks,
            Event.kerasModelSaved output_path,
            Event.treeCopied output_path F.model_dir,
            Event.evaluated eval2,
            Event.sessionCleared], fs4)

def mainTrace (F : Flags) (env : Env) : List Event :=
  match main F env with
  | .ok (tr, _) => tr
  | .error _ => []

def mainFS (F : Flags) (env : Env) : FS :=
  match main F env with
  | .ok (_, fs) => fs
  | .error _ => emptyFS

def mainErr (F : Flags) (env : Env) : Option PyError :=
  match main F env with
  | .ok _ => none
  | .error e => some e

def isEvalEvent : Event → Bool
  | Event.evaluated _ => true
  | _ => false

def isFitEvent : Event → Bool
  | Event.fitCalled _ _ _ _ _ _ => true
  | _ => false

def isCopyEvent : Event → Bool
  | Event.treeCopied _ _ => true
  | _ => false

def evalRecords (tr : List Event) : List EvalRecord :=
  tr.filterMap fun e =>
    match e with
    | Event.evaluated r => some r
    | _ => none

def fitParams (tr : List Event) : Option (Int × Int) :=
  tr.findSome? fun e =>
    match e with
    | Event.fitCalled _ s ep _ _ _ => some (s, ep)
    | _ => none

def modelOf (tr : List Event) : Option Model :=
  tr.findSome? fun e =>
    match e with
    | Event.modelCreated m => some m
    | _ => none

def feedersOf (tr : List Event) : Option (Feeder × Feeder × Feeder) :=
  tr.findSome? fun e =>
    match e with
    | Event.feedersCreated t v s => some (t, v, s)
    | _ => none

/-- The timestamped directory the second `save_keras_model` call (the
trained model's export) writes under the checkpoint directory. -/
def trainedExportDir (F : Flags) (env : Env) : FilePath :=
  F.model_dir.dropLast ++ ["checkpoints"] ++ [env.trainedName]

/-- The timestamped directory the first `save_keras_model` call (the
untrained model) writes under the checkpoint directory. -/
def untrainedExportDir (F : Flags) (env : Env) : FilePath :=
  F.model_dir.dropLast ++ ["checkpoints"] ++ [env.untrainedName]

/-- The `argparse` defaults. -/
def defaultFlags : Flags :=
  { image_dir := [],
    output_labels := ["tmp", "output_labels.txt"],
    summaries_dir := ["tmp", "retrain_logs"],
    how_many_training_steps := 200,
    learning_rate := float0_01,
    train_batch_size := 100,
    test_batch_size := -1,
    validation_batch_size := 100,
    model_dir := ["tf_files", "models", "retrained"],
    architecture := "mobilenetv2_1.0_224",
    optimizer_name := "sgd",
    image_size := 224,
    epochs := 10 }

/-- A concrete run environment: three classes B, C, A on disk, an empty
initial filesystem. -/
def envABC : Env :=
  { trainClasses := ["B", "C", "A"],
    valClasses := ["B", "C", "A"],
    testClasses := ["B", "C", "A"],
    timestamp := "20181111-120000",
    untrainedName := "1541950000",
    trainedName := "1541950600",
    untrainedFiles := [(["saved_model.pb"], FileData.bytes [0])],
    trainedFiles := [(["saved_model.pb"], FileData.bytes [1, 2])],
    fs0 := emptyFS }

/-- Same environment, but `model_dir` already holds a stale file before the
run starts. -/
def envStale : Env :=
  { envABC with
    fs0 := writeFile emptyFS ["tf_files", "models", "retrained", "stale.txt"]
             (FileData.bytes [9]) }

/-! ### Helper lemmas -/

lemma create_model_optimizer_cases (n : Int) (shape : Int × Int × Int) (lr : PyFloat)
    (opt : Option String) (ft : Bool) :
    (create_model n shape lr opt ft).optimizer = Optimizer.SGD lr ∨
      (create_model n shape lr opt ft).optimizer = Optimizer.Adam lr := by
  rcases opt with _ | name
  · left; rfl
  · by_cases h1 : name = "sgd"
    · subst h1; left; rfl
    · by_cases h2 : name = "adam"
      · subst h2; right; rfl
      · left
        have e1 : (name == "sgd") = false := by simp [h1]
        have e2 : (name == "adam") = false := by simp [h2]
        simp [create_model, available_optimizers, compileModel, List.lookup, e1, e2]

lemma mainErr_none_iff (F : Flags) (env : Env) :
    mainErr F env = none ↔
      (F.train_batch_size ≠ 0 ∧ Int.fdiv 2055 F.train_batch_size ≠ 0) := by
  by_cases h0 : F.train_batch_size = 0
  · simp [mainErr, main, pydiv, h0]
  · by_cases h1 : Int.fdiv 2055 F.train_batch_size = 0
    · simp [mainErr, main, pydiv, h0, h1]
    · simp [mainErr, main, pydiv, h0, h1]

lemma dictInsert_of_fresh (d : List (Nat × String)) (k : Nat) (v : String)
    (h : ∀ e ∈ d, e.1 ≠ k) : dictInsert d k v = d ++ [(k, v)] := by
  have hfalse : d.any (fun e => e.1 == k) = false := by
    simp only [List.any_eq_false, beq_iff_eq]
    exact h
  simp [dictInsert, hfalse]

lemma foldl_dictInsert_eq (m : List (String × Nat)) (acc : List (Nat × String))
    (hm : (m.map Prod.snd).Nodup)
    (hdisj : ∀ e ∈ acc, ∀ kv ∈ m, e.1 ≠ kv.2) :
    m.foldl (fun d kv => dictInsert d kv.2 kv.1) acc
      = acc ++ m.map (fun kv => (kv.2, kv.1)) := by
  induction m generalizing acc with
  | nil => simp
  | cons kv m ih =>
    rw [List.foldl_cons,
        dictInsert_of_fresh acc kv.2 kv.1 (fun e he => hdisj e he kv (List.mem_cons_self _ _))]
    have hm2 : (kv.2 :: m.map Prod.snd).Nodup := by simpa using hm
    have hm' : (m.map Prod.snd).Nodup := hm2.of_cons
    have hhead : kv.2 ∉ m.map Prod.snd := (List.nodup_cons.mp hm2).1
    rw [ih (acc ++ [(kv.2, kv.1)]) hm' ?hdisj]
    · simp
    case hdisj =>
      intro e he kv' hkv'
      rcases List.mem_append.mp he with h | h
      · exact hdisj e h kv' (List.mem_cons_of_mem _ hkv')
      · have he' : e = (kv.2, kv.1) := by simpa using h
        subst he'
        intro hc
        exact hhead (List.mem_map.mpr ⟨kv', hkv', hc.symm⟩)

lemma invert_eq_swap (m : List (String × Nat)) (hm : (m.map Prod.snd).Nodup) :
    invert_class_indices m = m.map (fun kv => (kv.2, kv.1)) := by
  simpa using foldl_dictInsert_eq m [] hm (by simp)

lemma copy_tree_reads (src dst : FilePath) (fs : FS) (r : FilePath) (c : FileData)
    (hnp : ¬ dst <+: src ++ r) (h : copy_tree src dst fs (src ++ r) = some c) :
    copy_tree src dst fs (dst ++ r) = some c := by
  have h' : fs (src ++ r) = some c := by
    simpa [copy_tree, hnp] using h
  have hpre : dst <+: dst ++ r := ⟨r, rfl⟩
  simp only [copy_tree, if_pos hpre, List.drop_left, h']

/-! ### Claim theorems -/

/-- C1 (counterexample): at the defaults `how_many_training_steps = 200`,
`train_batch_size = 100`, the training loop is invoked with
`steps_per_epoch = 20` and `epochs = 10`, not with `steps_per_epoch = 2`
and `epochs = 100` as the claim states: `steps_per_epoch` is computed from
the hard-coded `num_train_images = 2055`, not from
`how_many_training_steps`. -/
theorem steps_formula_spec_counterexample :
    defaultFlags.how_many_training_steps = 200
    ∧ defaultFlags.train_batch_size = 100
    ∧ fitParams (mainTrace defaultFlags envABC) = some (20, 10)
    ∧ fitParams (mainTrace defaultFlags envABC) ≠ some (2, 100) := by
  refine ⟨by decide, by decide, by decide, by decide⟩

/-- C1 (amended): for every run in which both divisions are defined, the
training loop is invoked with
`steps_per_epoch = 2055 // train_batch_size` (the hard-coded
`num_train_images`) and
`epochs = how_many_training_steps // steps_per_epoch`; in particular for
`how_many_training_steps = 200`, `train_batch_size = 100` it receives
`steps_per_epoch = 20` and `epochs = 10`. -/
theorem steps_and_epochs_formula (F : Flags) (env : Env)
    (h0 : F.train_batch_size ≠ 0)
    (h1 : Int.fdiv 2055 F.train_batch_size ≠ 0) :
    fitParams (mainTrace F env) =
      some (Int.fdiv 2055 F.train_batch_size,
            Int.fdiv F.how_many_training_steps (Int.fdiv 2055 F.train_batch_size)) := by
  simp [mainTrace, main, pydiv, h0, h1, fitParams, List.findSome?]

/-- C1 witness: the amended formula evaluated at the defaults. -/
theorem steps_and_epochs_formula_witness :
    fitParams (mainTrace defaultFlags envABC) = some (20, 10) :=
  steps_and_epochs_formula defaultFlags envABC (by decide) (by decide)

/-- C2 (counterexample): with `train_batch_size = 300 >
how_many_training_steps = 200` the run does not fault: `steps_per_epoch`
is `2055 // 300 = 6`, not `0`, and the training loop receives
`(6, 33)`.  The claim's trigger condition is wrong. -/
theorem divzero_spec_counterexample :
    (300 : Int) > 200
    ∧ mainErr { defaultFlags with train_batch_size := 300 } envABC = none
    ∧ fitParams (mainTrace { defaultFlags with train_batch_size := 300 } envABC)
        = some (6, 33) := by
  refine ⟨by decide, by decide, by decide⟩

/-- C2 (amended): the division-by-zero fault occurs when
`train_batch_size` exceeds the hard-coded `num_train_images = 2055` (not
`how_many_training_steps`): then `steps_per_epoch = 2055 //
train_batch_size = 0` and the epoch computation
`how_many_training_steps // steps_per_epoch` raises `ZeroDivisionError`,
terminating the run fatally. -/
theorem divzero_when_batch_exceeds_dataset (F : Flags) (env : Env)
    (h : 2055 < F.train_batch_size) :
    pydiv 2055 F.train_batch_size = .ok 0
    ∧ mainErr F env = some PyError.zeroDivisionError := by
  have h0 : F.train_batch_size ≠ 0 := by omega
  have h1 : Int.fdiv 2055 F.train_batch_size = 0 := by
    rw [Int.fdiv_eq_ediv 2055 (by omega)]
    exact Int.ediv_eq_zero_of_lt (by norm_num) h
  exact ⟨by simp [pydiv, h0, h1], by simp [mainErr, main, pydiv, h0, h1]⟩

/-- C2 witness: the amended fault condition at `train_batch_size = 3000`. -/
theorem divzero_when_batch_exceeds_dataset_witness :
    pydiv 2055 (3000 : Int) = .ok 0
    ∧ mainErr { defaultFlags with train_batch_size := 3000 } envABC
        = some PyError.zeroDivisionError :=
  divzero_when_batch_exceeds_dataset { defaultFlags with train_batch_size := 3000 } envABC
    (by decide)

/-- C3: model creation never fails on an unknown optimizer name: any name
outside `{"sgd", "adam"}` silently gets `available_optimizers["sgd"]`, and
the two known names get their own optimizer.  (`create_model` is a total
function of the embedding: compilation always happens, with the chosen
optimizer.) -/
theorem unknown_optimizer_silently_defaults_sgd (n : Int) (shape : Int × Int × Int)
    (lr : PyFloat) (ft : Bool) (name : String) :
    (name ∉ ["sgd", "adam"] →
      (create_model n shape lr (some name) ft).optimizer = Optimizer.SGD lr)
    ∧ (create_model n shape lr (some "sgd") ft).optimizer = Optimizer.SGD lr
    ∧ (create_model n shape lr (some "adam") ft).optimizer = Optimizer.Adam lr := by
  refine ⟨fun hname => ?_, rfl, rfl⟩
  have h1 : name ≠ "sgd" := by intro hc; exact hname (by simp [hc])
  have h2 : name ≠ "adam" := by intro hc; exact hname (by simp [hc])
  have e1 : (name == "sgd") = false := by simp [h1]
  have e2 : (name == "adam") = false := by simp [h2]
  simp [create_model, available_optimizers, compileModel, List.lookup, e1, e2]

/-- C3 witness: `optimizer_name = "rmsprop"` falls back to SGD. -/
theorem unknown_optimizer_silently_defaults_sgd_witness :
    ("rmsprop" ∉ (["sgd", "adam"] : List String))
    ∧ (create_model 5 (224, 224, 3) float0_01 (some "rmsprop") false).optimizer
        = Optimizer.SGD float0_01 :=
  ⟨by decide,
   (unknown_optimizer_silently_defaults_sgd 5 (224, 224, 3) float0_01 false "rmsprop").1
     (by decide)⟩

/-- C4 (code bug): at the defaults (`test_batch_size = -1`,
`validation_batch_size = 100`, `train_batch_size = 100`) all three feeders
— train, validation and test — are created with batch size 100, the value
of `train_batch_size`; the `test_batch_size` and `validation_batch_size`
flags are never read by `main`, so their documented `-1` = full-set
semantics is never applied (changing them does not change the run at
all). -/
theorem batch_size_flags_ignored :
    defaultFlags.test_batch_size = -1
    ∧ defaultFlags.validation_batch_size = 100
    ∧ ((feedersOf (mainTrace defaultFlags envABC)).map
        (fun f => (f.1.batchSize, f.2.1.batchSize, f.2.2.batchSize))
          = some (100, 100, 100))
    ∧ main { defaultFlags with test_batch_size := 7, validation_batch_size := 9 } envABC
        = main defaultFlags envABC := by
  refine ⟨by decide, by decide, by decide, rfl⟩

/-- C5: whatever label→index mapping the training feeder discovered (its
indices are pairwise distinct), `save_labels_to_file` writes a file whose
dict is exactly the inverse index→label mapping, and the `os.makedirs`
call on the file's parent directory precedes the write. -/
theorem labels_file_inverse_and_makedirs (g : Feeder) (file : FilePath)
    (hinj : (g.class_indices.map Prod.snd).Nodup) :
    (∀ i l, (i, l) ∈ invert_class_indices g.class_indices ↔ (l, i) ∈ g.class_indices)
    ∧ save_labels_to_file g file =
        [FsOp.makedirs file.dropLast,
         FsOp.write (npyPath file)
           (FileData.npyDict (invert_class_indices g.class_indices))] := by
  constructor
  · intro i l
    rw [invert_eq_swap g.class_indices hinj]
    constructor
    · intro h
      rcases List.mem_map.mp h with ⟨kv, hkv, he⟩
      have : kv = (l, i) := by
        rcases kv with ⟨a, b⟩
        simp only [Prod.mk.injEq] at he
        simp [he.1, he.2]
      exact this ▸ hkv
    · intro h
      exact List.mem_map.mpr ⟨(l, i), h, rfl⟩
  · rfl

/-- C5 witness: for a directory tree with labels {A, B, C} (listed as B,
C, A), the feeder assigns indices 0, 1, 2 to A, B, C and the persisted
file holds the inverse mapping, written after the makedirs. -/
theorem labels_file_inverse_and_makedirs_witness :
    ((0, "A") ∈ invert_class_indices (flowClassIndices ["B", "C", "A"]) ↔
      ("A", 0) ∈ flowClassIndices ["B", "C", "A"])
    ∧ save_labels_to_file
        { dir := ["train"], batchSize := 100, imageSize := 224, augmented := true,
          class_indices := flowClassIndices ["B", "C", "A"] }
        ["tmp", "output_labels.txt"] =
      [FsOp.makedirs ["tmp"],
       FsOp.write ["tmp", "output_labels.txt.npy"]
         (FileData.npyDict (invert_class_indices (flowClassIndices ["B", "C", "A"])))] := by
  have h := labels_file_inverse_and_makedirs
    { dir := ["train"], batchSize := 100, imageSize := 224, augmented := true,
      class_indices := flowClassIndices ["B", "C", "A"] }
    ["tmp", "output_labels.txt"] (by decide)
  exact ⟨h.1 0 "A", h.2⟩

/-- C6: every run that completes builds the classification head with
exactly 5 output units (`num_labels` hard-coded) and computes
`steps_per_epoch = 2055 // train_batch_size` (`num_train_images`
hard-coded), for any environment — i.e. independent of how many class
subdirectories the dataset on disk actually has. -/
theorem hardcoded_num_labels_and_train_images (F : Flags) (env : Env)
    (h : mainErr F env = none) :
    (modelOf (mainTrace F env)).map (fun m => m.network.head_units) = some 5
    ∧ (fitParams (mainTrace F env)).map Prod.fst
        = some (Int.fdiv 2055 F.train_batch_size) := by
  obtain ⟨h0, h1⟩ := (mainErr_none_iff F env).mp h
  constructor
  · simp [mainTrace, main, pydiv, h0, h1, modelOf, List.findSome?, create_model,
      add_classifier, compileModel]
  · simp [mainTrace, main, pydiv, h0, h1, fitParams, List.findSome?]

/-- C6 witness: at the defaults with a 3-class dataset on disk, the head
still has 5 units and `steps_per_epoch = 2055 // 100 = 20`. -/
theorem hardcoded_num_labels_and_train_images_witness :
    (modelOf (mainTrace defaultFlags envABC)).map (fun m => m.network.head_units) = some 5
    ∧ (fitParams (mainTrace defaultFlags envABC)).map Prod.fst = some 20 :=
  hardcoded_num_labels_and_train_images defaultFlags envABC (by decide)

/-- C7: `evaluate_model` always recompiles the loaded model with the
hard-coded `MomentumOptimizer(learning_rate=1e-3, momentum=0.9)`, which is
distinct from whatever optimizer `create_model` can compile with (the
user's training-time choice); it runs `evaluate_generator` with no `steps`
argument (one full pass over the given feeder) and logs the accuracy; the
python function returns `None`, so the accuracy is not returned to any
consumer (the record holds no accuracy value). -/
theorem evaluate_model_fixed_momentum_full_pass (path : FilePath) (g : Feeder)
    (n : Int) (shape : Int × Int × Int) (lr : PyFloat) (optname : Option String)
    (ft : Bool) :
    (evaluate_model path g).recompiledWith = Optimizer.Momentum float1e3 float0_9
    ∧ (evaluate_model path g).recompiledWith ≠ (create_model n shape lr optname ft).optimizer
    ∧ (evaluate_model path g).steps = none
    ∧ (evaluate_model path g).feeder = g
    ∧ (evaluate_model path g).loggedAccuracy = true := by
  refine ⟨rfl, ?_, rfl, rfl, rfl⟩
  rcases create_model_optimizer_cases n shape lr optname ft with h | h <;>
    rw [h] <;> simp [evaluate_model]

/-- C8: in every run that completes, evaluation happens exactly twice: the
two eval records load, in order, the freshly saved untrained model and the
final `model_dir`, both evaluate against the test feeder with the accuracy
logged; exactly one evaluation precedes the `fit` call and exactly one
follows the copy to `model_dir`. -/
theorem evaluation_invoked_twice (F : Flags) (env : Env)
    (h : mainErr F env = none) :
    ((evalRecords (mainTrace F env)).map EvalRecord.loadedFrom
        = [untrainedExportDir F env, F.model_dir])
    ∧ (∀ r ∈ evalRecords (mainTrace F env),
        r.feeder.dir = F.image_dir ++ ["test"] ∧ r.loggedAccuracy = true)
    ∧ ((mainTrace F env).takeWhile (fun e => !isFitEvent e)).countP isEvalEvent = 1
    ∧ ((mainTrace F env).dropWhile (fun e => !isCopyEvent e)).countP isEvalEvent = 1 := by
  obtain ⟨h0, h1⟩ := (mainErr_none_iff F env).mp h
  refine ⟨?_, ?_, ?_, ?_⟩
  · simp [mainTrace, main, pydiv, h0, h1, evalRecords, untrainedExportDir,
      create_data_feeders, evaluate_model]
  · intro r hr
    simp [mainTrace, main, pydiv, h0, h1, evalRecords, create_data_feeders,
      evaluate_model] at hr
    rcases hr with hr | hr <;> subst hr <;> exact ⟨rfl, rfl⟩
  · simp [mainTrace, main, pydiv, h0, h1, List.takeWhile, List.countP, List.countP.go,
      isFitEvent, isEvalEvent]
  · simp [mainTrace, main, pydiv, h0, h1, List.dropWhile, List.countP, List.countP.go,
      isCopyEvent, isEvalEvent]

/-- C8 witness: the two evaluations of the default run. -/
theorem evaluation_invoked_twice_witness :
    (evalRecords (mainTrace defaultFlags envABC)).map EvalRecord.loadedFrom
      = [untrainedExportDir defaultFlags envABC, defaultFlags.model_dir] :=
  (evaluation_invoked_twice defaultFlags envABC (by decide)).1

/-- C9 (counterexample): a run started with a stale file already under
`model_dir` completes with that file still present in `model_dir` and
absent from the checkpoint export directory, so the file set of
`model_dir` after the copy is not identical to the export directory's
contents (`copy_tree` overlays, it does not delete). -/
theorem export_copy_not_identical_counterexample :
    mainErr defaultFlags envStale = none
    ∧ mainFS defaultFlags envStale ["tf_files", "models", "retrained", "stale.txt"]
        = some (FileData.bytes [9])
    ∧ mainFS defaultFlags envStale
        (trainedExportDir defaultFlags envStale ++ ["stale.txt"]) = none
    ∧ mainFS defaultFlags envStale ["tf_files", "models", "retrained", "saved_model.pb"]
        = some (FileData.bytes [1, 2]) := by
  refine ⟨by decide, by decide, by decide, by decide⟩

/-- C9 (amended): after training, the model is serialized into the
checkpoint export directory and that tree is copied to `model_dir`: the
run's trace contains the save followed by the copy, and every file of the
export directory appears byte-identical under `model_dir` in the final
filesystem.  The file *set* of `model_dir` equals the export's only when
`model_dir` held no other files: pre-existing files are preserved, not
deleted. -/
theorem export_copied_into_model_dir (F : Flags) (env : Env) (r : FilePath)
    (c : FileData) (h : mainErr F env = none)
    (hsrc : mainFS F env (trainedExportDir F env ++ r) = some c)
    (hnp : ¬ F.model_dir <+: trainedExportDir F env ++ r) :
    Event.kerasModelSaved (trainedExportDir F env) ∈ mainTrace F env
    ∧ Event.treeCopied (trainedExportDir F env) F.model_dir ∈ mainTrace F env
    ∧ mainFS F env (F.model_dir ++ r) = some c := by
  obtain ⟨h0, h1⟩ := (mainErr_none_iff F env).mp h
  refine ⟨?_, ?_, ?_⟩
  · simp [mainTrace, main, pydiv, h0, h1, trainedExportDir]
  · simp [mainTrace, main, pydiv, h0, h1, trainedExportDir]
  · simp only [mainFS, main, pydiv, if_neg h0, if_neg h1, trainedExportDir] at hsrc ⊢
    exact copy_tree_reads _ _ _ r c (by simpa [trainedExportDir] using hnp) hsrc

/-- C9 witness: the trained export's `saved_model.pb` is found
byte-identical under `model_dir` after the default (stale-file) run. -/
theorem export_copied_into_model_dir_witness :
    mainFS defaultFlags envStale (defaultFlags.model_dir ++ ["saved_model.pb"])
      = some (FileData.bytes [1, 2]) :=
  (export_copied_into_model_dir defaultFlags envStale ["saved_model.pb"]
    (FileData.bytes [1, 2]) (by decide) (by decide) (by decide)).2.2

/-- C10: two runs whose flags differ only in the `epochs` flag behave
identically — `main` never reads `FLAGS.epochs`; the epoch count passed to
the training loop is computed from the step count and batch size alone. -/
theorem epochs_flag_not_read (F : Flags) (env : Env) (e : Int) :
    main { F with epochs := e } env = main F env := rfl

end Retrain
